import Mathlib

/-!
Verification of the `Database` component of pybiomart (`pybiomart/database.py`).

The embedding models:
* the `Database` class state (identity strings, connection attributes, the
  lazily-populated `_datasets` cache slot),
* the pandas `read_csv(StringIO(text), sep='\t', header=None, names=RESULT_COLNAMES)`
  call restricted to its documented default behaviour on tab-separated text
  (blank lines skipped, empty fields read as NaN, short rows padded with NaN,
  rows wider than the expected width rejected with a tokenizer error, an empty
  body rejected with `EmptyDataError`, extra leading columns of a wide first
  row consumed as an implicit index),
* the Python dict comprehension `{d.name: d for d in datasets}` as an
  insertion-ordered association list with replace-on-duplicate insertion,
* the transport `get` inherited from `ServerBase` as an abstract function
  argument, and the trace of GET requests an access issues.

Python exceptions are modelled by the `Err` inductive; a raising operation
returns `Except Err`.
-/

namespace PyBiomart

/-- Modelled from the spec: the error kinds surfaced by this component.
`transport` covers the GET failing (connection error, non-2xx status, raised
inside `ServerBase.get`, which is not part of the excerpt); `emptyData` is
pandas `EmptyDataError`; `tokenizeError` is the pandas `ParserError` raised
when a row has more fields than expected; `keyNotFound` is Python `KeyError`
from indexing the datasets dict. -/
inductive Err where
  | transport (msg : String)
  | emptyData
  | tokenizeError (expected saw : Nat)
  | keyNotFound (key : String)
deriving DecidableEq

/-- Modelled from the spec: the response object returned by `ServerBase.get`
exposes a text body (`response.text`). -/
structure Response where
  text : String
deriving DecidableEq

/-- Query parameters of a GET request, as keyword/value pairs. -/
def GetParams : Type := List (String × String)

/-- Modelled from the spec: the transport capability inherited from
`ServerBase` (not part of the excerpt): a synchronous GET that either returns
a response or raises. -/
def GetFn : Type := GetParams → Except Err Response

/-- Modelled from the spec: `DEFAULT_SCHEMA`, the well-known default virtual
schema constant imported from `pybiomart.base`. -/
def DEFAULT_SCHEMA : String := "default"

/-- Modelled from the spec: a `Dataset` (from `pybiomart.dataset`, not part of
the excerpt) is constructed once per discovered row and simply receives the
identity and connection attributes passed to its constructor; we model it as a
record of those constructor arguments.  String-valued arguments may be pandas
NaN (a missing field), modelled as `none`. -/
structure Dataset where
  name : Option String
  display_name : Option String
  host : Option String
  path : Option String
  port : Option Nat
  use_cache : Bool
  virtual_schema : Option String
deriving DecidableEq

/-- One parsed row of the datasets response, with the nine positional column
names of `Database.RESULT_COLNAMES`.  A field holds `none` where pandas reads
NaN (an empty or missing field). -/
structure Row where
  type : Option String
  name : Option String
  display_name : Option String
  unknown : Option String
  unknown2 : Option String
  unknown3 : Option String
  unknown4 : Option String
  virtual_schema : Option String
  unknown5 : Option String
deriving DecidableEq

/-- The class attribute `Database.RESULT_COLNAMES`: the nine positional column names given to
`pd.read_csv`. -/
def RESULT_COLNAMES : List String :=
  ["type", "name", "display_name", "unknown", "unknown2",
   "unknown3", "unknown4", "virtual_schema", "unknown5"]

/-- Split a character list on a separator character; like Python string
splitting, `n` separators yield `n + 1` (possibly empty) fields. -/
def splitListChar (sep : Char) : List Char → List (List Char)
  | [] => [[]]
  | c :: rest =>
    match splitListChar sep rest with
    | [] => if c = sep then [[], []] else [[c]]
    | f :: fs => if c = sep then [] :: f :: fs else (c :: f) :: fs

/-- pandas reads an empty field as NaN (its default `na_values` include the
empty string); a non-empty field is kept as a string. -/
def naField (f : List Char) : Option String :=
  if f = [] then none else some (String.mk f)

/-- Assemble a `Row` from the data fields of one line, in the positional
order of `RESULT_COLNAMES`; missing trailing fields are read as NaN. -/
def Row.ofFields (fs : List (List Char)) : Row :=
  ⟨naField (fs.getD 0 []), naField (fs.getD 1 []), naField (fs.getD 2 []),
   naField (fs.getD 3 []), naField (fs.getD 4 []), naField (fs.getD 5 []),
   naField (fs.getD 6 []), naField (fs.getD 7 []), naField (fs.getD 8 [])⟩

/-- The non-blank lines of the response text (pandas skips blank lines by
default; a trailing newline therefore contributes no row). -/
def bodyLines (text : String) : List (List Char) :=
  (splitListChar '\n' text.data).filter (fun l => !l.isEmpty)

/-- The pandas call of `Database._fetch_datasets`:
`pd.read_csv(StringIO(response.text), sep='\t', header=None,
names=self.RESULT_COLNAMES)`, modelled on its documented default behaviour:
an empty body raises `EmptyDataError`; the expected row width is
`max (len names) (width of first row)`, a first row wider than the nine names
making the extra leading columns an implicit index that is consumed and
discarded; a row wider than expected raises a tokenizer `ParserError`; a
shorter row is padded with NaN. -/
def readCsvTsv (text : String) : Except Err (List Row) :=
  match bodyLines text with
  | [] => .error .emptyData
  | l₀ :: rest =>
    let nindex := (splitListChar '\t' l₀).length - RESULT_COLNAMES.length
    let nexp := RESULT_COLNAMES.length + nindex
    (l₀ :: rest).mapM (fun l =>
      let fs := splitListChar '\t' l
      if nexp < fs.length then .error (.tokenizeError nexp fs.length)
      else .ok (Row.ofFields (fs.drop nindex)))

/-- The name-keyed mapping of datasets, as an insertion-ordered association
list (the model of the Python dict built in `_fetch_datasets`). -/
def DMap : Type := List (Option String × Dataset)

/-- Python dict insertion: if the key is present its value is replaced in
place (keeping the original insertion position), otherwise the pair is
appended. -/
def dictUpsert : DMap → Option String → Dataset → DMap
  | [], k, v => [(k, v)]
  | (k₀, v₀) :: t, k, v =>
    if k₀ = k then (k, v) :: t else (k₀, v₀) :: dictUpsert t k v

/-- Python dict lookup `m[k]`, returning `none` where Python raises
`KeyError`. -/
def dictLookup : DMap → Option String → Option Dataset
  | [], _ => none
  | (k₀, v) :: t, k => if k₀ = k then some v else dictLookup t k

/-- Number of entries of the mapping stored under a given key. -/
def countKey : DMap → Option String → Nat
  | [], _ => 0
  | (k₀, _) :: t, k => (if k₀ = k then 1 else 0) + countKey t k

/-- The dict comprehension `{d.name: d for d in datasets}`: datasets are
inserted left to right, a later dataset with a duplicate name overwriting the
earlier entry. -/
def dictOfDatasets (ds : List Dataset) : DMap :=
  ds.foldl (fun m d => dictUpsert m d.name d) []

/-- The `Database` instance state.  Identity and connection attributes are set
at construction; `_datasets` is the lazily populated cache slot, `none` until
the first successful fetch.  `host`, `path`, `port` and `use_cache` are the
attributes stored by the `ServerBase` constructor (modelled from the spec, the
base class not being part of the excerpt). -/
structure Database where
  _name : String
  _database_name : String
  _display_name : String
  host : Option String
  path : Option String
  port : Option Nat
  use_cache : Bool
  _virtual_schema : String
  _extra_params : Option (List (String × String))
  _datasets : Option DMap

/-- The constructor `Database.__init__`: stores identity and connection attributes and leaves
the dataset cache slot absent.  (In Python `use_cache` defaults to `True` and
`virtual_schema` to `DEFAULT_SCHEMA`; defaults are passed explicitly here.)
No I/O occurs: the constructor takes no transport argument at all. -/
def Database.init (name database_name display_name : String)
    (host path : Option String) (port : Option Nat) (use_cache : Bool)
    (virtual_schema : String)
    (extra_params : Option (List (String × String))) : Database :=
  ⟨name, database_name, display_name, host, path, port, use_cache,
   virtual_schema, extra_params, none⟩

/-- The query parameters of the single GET issued by `_fetch_datasets`:
`self.get(type='datasets', mart=self._name)`. -/
def Database.queryParams (db : Database) : GetParams :=
  [("type", "datasets"), ("mart", db._name)]

/-- The method `Database._dataset_from_row`: build a `Dataset` from one row, passing the
row's `name`, `display_name` and `virtual_schema` fields and the Database's
own `host`, `path`, `port` and `use_cache`. -/
def Database.datasetFromRow (db : Database) (row : Row) : Dataset :=
  ⟨row.name, row.display_name, db.host, db.path, db.port, db.use_cache,
   row.virtual_schema⟩

/-- The method `Database._fetch_datasets`: one GET, parse the body, convert each row to a
`Dataset` and build the name-keyed dict.  Any raised error propagates. -/
def Database.fetchDatasets (db : Database) (get : GetFn) :
    Except Err DMap :=
  match get db.queryParams with
  | .error e => .error e
  | .ok resp =>
    match readCsvTsv resp.text with
    | .error e => .error e
    | .ok rows => .ok (dictOfDatasets (rows.map db.datasetFromRow))

/-- The observable outcome of one access to a `Database` operation: the value
returned or error raised, the instance state afterwards, and the trace of GET
requests issued during the access. -/
structure Access (α : Type) where
  result : Except Err α
  db : Database
  requests : List GetParams

/-- Replace the `_datasets` cache slot (the assignment
`self._datasets = self._fetch_datasets()`). -/
def Database.withDatasets (db : Database) (m : DMap) : Database :=
  ⟨db._name, db._database_name, db._display_name, db.host, db.path, db.port,
   db.use_cache, db._virtual_schema, db._extra_params, some m⟩

/-- The `datasets` property: if the cache slot is absent, fetch (issuing
exactly one GET) and store on success; on failure the error propagates and the
slot is left untouched.  If the slot is populated, return the cached mapping
with no GET. -/
def Database.datasetsProp (db : Database) (get : GetFn) : Access DMap :=
  match db._datasets with
  | some m => ⟨.ok m, db, []⟩
  | none =>
    match db.fetchDatasets get with
    | .ok m => ⟨.ok m, db.withDatasets m, [db.queryParams]⟩
    | .error e => ⟨.error e, db, [db.queryParams]⟩

/-- The indexing method `Database.__getitem__`: `self.datasets[name]` — access the `datasets`
property (triggering the lazy fetch) and index the mapping, raising `KeyError`
(`Err.keyNotFound`) when the name is absent. -/
def Database.getItem (db : Database) (get : GetFn) (name : String) :
    Access Dataset :=
  let a := db.datasetsProp get
  match a.result with
  | .error e => ⟨.error e, a.db, a.requests⟩
  | .ok m =>
    match dictLookup m (some name) with
    | some d => ⟨.ok d, a.db, a.requests⟩
    | none => ⟨.error (.keyNotFound name), a.db, a.requests⟩

/-- Python `repr(s)` of a string, for the plain strings used here (no quote or
escape characters inside). -/
def pyReprStr (s : String) : String := "'" ++ s ++ "'"

/-- The method `Database.__repr__`: the format string
`<biomart.Mart name={!r}, database_name={!r}, display_name={!r}>` applied to
the argument tuple `(self._name, self._display_name, self._database_name,
self.host, self.path)` — the second slot receives `_display_name` and the
third `_database_name`; the trailing `host` and `path` arguments are unused. -/
def Database.reprStr (db : Database) : String :=
  "<biomart.Mart name=" ++ pyReprStr db._name ++
    ", database_name=" ++ pyReprStr db._display_name ++
    ", display_name=" ++ pyReprStr db._database_name ++ ">"

end PyBiomart

namespace PyBiomart

theorem dictLookup_dictUpsert_self (m : DMap) (k : Option String) (v : Dataset) :
    dictLookup (dictUpsert m k v) k = some v := by
  induction m with
  | nil => simp [dictUpsert, dictLookup]
  | cons p t ih =>
    obtain ⟨k₀, v₀⟩ := p
    by_cases h : k₀ = k
    · simp [dictUpsert, h, dictLookup]
    · simp [dictUpsert, h, dictLookup, ih]

theorem dictLookup_dictUpsert_ne (m : DMap) (k k₂ : Option String) (v : Dataset)
    (h : k₂ ≠ k) :
    dictLookup (dictUpsert m k v) k₂ = dictLookup m k₂ := by
  have h' : ¬ k = k₂ := fun hh => h hh.symm
  induction m with
  | nil => simp [dictUpsert, dictLookup, h']
  | cons p t ih =>
    obtain ⟨k₀, v₀⟩ := p
    by_cases hk : k₀ = k
    · subst hk
      simp [dictUpsert, dictLookup, h']
    · simp [dictUpsert, hk, dictLookup, ih]

theorem dictLookup_foldl_some (ds : List Dataset) (acc : DMap)
    (k : Option String) (d : Dataset)
    (h : ds.reverse.find? (fun x => decide (x.name = k)) = some d) :
    dictLookup (ds.foldl (fun m x => dictUpsert m x.name x) acc) k = some d := by
  induction ds using List.reverseRecOn generalizing acc with
  | nil => simp at h
  | append_singleton t a ih =>
    rw [List.foldl_append, List.foldl_cons, List.foldl_nil]
    rw [List.reverse_append, List.reverse_singleton, List.singleton_append] at h
    by_cases hp : a.name = k
    · rw [List.find?_cons_of_pos _ (by simp [hp])] at h
      simp only [Option.some.injEq] at h
      subst h
      rw [← hp]
      exact dictLookup_dictUpsert_self _ _ _
    · rw [List.find?_cons_of_neg _ (by simp [hp])] at h
      rw [dictLookup_dictUpsert_ne _ _ _ _ (fun hh => hp hh.symm)]
      exact ih _ h

theorem countKey_dictUpsert (m : DMap) (k k₂ : Option String) (v : Dataset) :
    countKey (dictUpsert m k v) k₂
      = if k = k₂ then max (countKey m k₂) 1 else countKey m k₂ := by
  induction m with
  | nil =>
    by_cases h : k = k₂ <;> simp [dictUpsert, countKey, h]
  | cons p t ih =>
    obtain ⟨k₀, v₀⟩ := p
    by_cases hk : k₀ = k
    · subst hk
      by_cases h2 : k₀ = k₂ <;> simp [dictUpsert, countKey, h2]
    · by_cases h2 : k₀ = k₂
      · subst h2
        have h3 : ¬ k = k₀ := fun hh => hk hh.symm
        rw [if_neg h3]
        simp [dictUpsert, hk, countKey, ih, h3]
      · by_cases h3 : k = k₂
        · subst h3
          rw [if_pos rfl]
          simp [dictUpsert, hk, countKey, h2, ih]
        · rw [if_neg h3]
          simp [dictUpsert, hk, countKey, h2, ih, h3]

theorem countKey_foldl_le_one (ds : List Dataset) (acc : DMap)
    (h : ∀ k, countKey acc k ≤ 1) (k : Option String) :
    countKey (ds.foldl (fun m x => dictUpsert m x.name x) acc) k ≤ 1 := by
  induction ds generalizing acc with
  | nil => exact h k
  | cons a t ih =>
    rw [List.foldl_cons]
    refine ih _ (fun k₂ => ?_)
    rw [countKey_dictUpsert]
    by_cases hk : a.name = k₂
    · simp only [hk, if_true]
      have := h k₂
      omega
    · simp only [hk, if_false]
      exact h k₂

theorem one_le_countKey_of_dictLookup (m : DMap) (k : Option String) (d : Dataset)
    (h : dictLookup m k = some d) : 1 ≤ countKey m k := by
  induction m with
  | nil => simp [dictLookup] at h
  | cons p t ih =>
    obtain ⟨k₀, v₀⟩ := p
    by_cases hk : k₀ = k
    · simp [countKey, hk]
    · simp only [dictLookup, hk, if_false] at h
      have := ih h
      simp only [countKey, hk, if_false]
      omega

theorem dictLookup_foldl_mem (ds : List Dataset) (acc : DMap)
    (k : Option String) (d : Dataset)
    (h : dictLookup (ds.foldl (fun m x => dictUpsert m x.name x) acc) k = some d) :
    d ∈ ds ∨ dictLookup acc k = some d := by
  induction ds generalizing acc with
  | nil => exact Or.inr h
  | cons a t ih =>
    rw [List.foldl_cons] at h
    rcases ih _ h with hm | hl
    · exact Or.inl (List.mem_cons_of_mem _ hm)
    · by_cases hk : k = a.name
      · subst hk
        rw [dictLookup_dictUpsert_self] at hl
        simp only [Option.some.injEq] at hl
        subst hl
        exact Or.inl (List.mem_cons_self _ _)
      · rw [dictLookup_dictUpsert_ne _ _ _ _ hk] at hl
        exact Or.inr hl

end PyBiomart

namespace PyBiomart

/-- A Database as the `Server` collaborator would construct it, with default
connection attributes left to the transport. -/
def c2_db : Database :=
  Database.init "mart1" "the_db" "The DB" none none none true DEFAULT_SCHEMA none

/-- The crafted two-row TSV body of spec §8 property 2. -/
def c2_body : String :=
  "TableSet\tds1\tDisplay One\t\t\t\t\tschema_x\t\nTableSet\tds2\tDisplay Two\t\t\t\t\tschema_x\t"

/-- A transport returning the crafted body. -/
def c2_get : GetFn := fun _ => .ok ⟨c2_body⟩

/-- The dataset parsed from the first crafted row. -/
def c2_d1 : Dataset :=
  ⟨some "ds1", some "Display One", none, none, none, true, some "schema_x"⟩

/-- The dataset parsed from the second crafted row. -/
def c2_d2 : Dataset :=
  ⟨some "ds2", some "Display Two", none, none, none, true, some "schema_x"⟩

/-- The mapping the crafted body parses to. -/
def c2_map : DMap := [(some "ds1", c2_d1), (some "ds2", c2_d2)]

/-- The first crafted row, parsed. -/
def c2_row1 : Row :=
  ⟨some "TableSet", some "ds1", some "Display One", none, none, none, none,
   some "schema_x", none⟩

/-- The second crafted row, parsed. -/
def c2_row2 : Row :=
  ⟨some "TableSet", some "ds2", some "Display Two", none, none, none, none,
   some "schema_x", none⟩

/-- The rows the crafted body parses to. -/
def c2_rows : List Row := [c2_row1, c2_row2]

/-- A body with two rows sharing `name` `ds1` and different display names. -/
def dup_body : String :=
  "TableSet\tds1\tAlpha\t\t\t\t\tsx\t\nTableSet\tds1\tBeta\t\t\t\t\tsx\t"

/-- A transport returning the duplicate-name body. -/
def dup_get : GetFn := fun _ => .ok ⟨dup_body⟩

/-- The rows of the duplicate-name body. -/
def dup_rows : List Row :=
  [⟨some "TableSet", some "ds1", some "Alpha", none, none, none, none,
    some "sx", none⟩,
   ⟨some "TableSet", some "ds1", some "Beta", none, none, none, none,
    some "sx", none⟩]

/-- The dataset built from the later duplicate row. -/
def dup_last : Dataset := ⟨some "ds1", some "Beta", none, none, none, true, some "sx"⟩

/-- A Database with explicit connection attributes. -/
def c7_db : Database :=
  Database.init "m7" "db7" "D7" (some "www.example.org")
    (some "/biomart/martservice") (some 80) true DEFAULT_SCHEMA none

/-- A transport returning a single two-field row. -/
def c7_get : GetFn := fun _ => .ok ⟨"a\tb"⟩

/-- A transport whose GET always fails. -/
def failGet : GetFn := fun _ => .error (.transport "connection refused")

/-- A transport returning an empty body. -/
def emptyGet : GetFn := fun _ => .ok ⟨""⟩

theorem fetchDatasets_of_get_error (db : Database) (get : GetFn) (e : Err)
    (hg : get db.queryParams = .error e) : db.fetchDatasets get = .error e := by
  simp only [Database.fetchDatasets, hg]

theorem fetchDatasets_of_parse_error (db : Database) (get : GetFn)
    (resp : Response) (e : Err)
    (hg : get db.queryParams = .ok resp) (hp : readCsvTsv resp.text = .error e) :
    db.fetchDatasets get = .error e := by
  simp only [Database.fetchDatasets, hg, hp]

theorem fetchDatasets_of_parse_ok (db : Database) (get : GetFn)
    (resp : Response) (rows : List Row)
    (hg : get db.queryParams = .ok resp) (hp : readCsvTsv resp.text = .ok rows) :
    db.fetchDatasets get = .ok (dictOfDatasets (rows.map db.datasetFromRow)) := by
  simp only [Database.fetchDatasets, hg, hp]

theorem datasetsProp_of_some (db : Database) (get : GetFn) (m : DMap)
    (hc : db._datasets = some m) :
    db.datasetsProp get = ⟨.ok m, db, []⟩ := by
  simp only [Database.datasetsProp, hc]

theorem datasetsProp_of_none_ok (db : Database) (get : GetFn) (m : DMap)
    (hc : db._datasets = none) (hf : db.fetchDatasets get = .ok m) :
    db.datasetsProp get = ⟨.ok m, db.withDatasets m, [db.queryParams]⟩ := by
  simp only [Database.datasetsProp, hc, hf]

theorem datasetsProp_of_none_error (db : Database) (get : GetFn) (e : Err)
    (hc : db._datasets = none) (hf : db.fetchDatasets get = .error e) :
    db.datasetsProp get = ⟨.error e, db, [db.queryParams]⟩ := by
  simp only [Database.datasetsProp, hc, hf]

theorem datasetsProp_requests_of_none (db : Database) (get : GetFn)
    (hc : db._datasets = none) :
    (db.datasetsProp get).requests = [db.queryParams] := by
  cases hf : db.fetchDatasets get with
  | ok m => rw [datasetsProp_of_none_ok db get m hc hf]
  | error e => rw [datasetsProp_of_none_error db get e hc hf]

theorem withDatasets_cache (db : Database) (m : DMap) :
    (db.withDatasets m)._datasets = some m := rfl

end PyBiomart

namespace PyBiomart

/-- A transport returning a body whose second row is wider than the expected
nine columns. -/
def wideGet : GetFn := fun _ => .ok ⟨"a\tb\nc\td\te\tf\tg\th\ti\tj\tk\tl"⟩

example : readCsvTsv "a\tb\nc\td\te\tf\tg\th\ti\tj\tk\tl" = .error (.tokenizeError 9 10) := rfl

/-- The Database of the C9 evaluation. -/
def c9_db : Database :=
  Database.init "n" "dbn" "disp" none none none true DEFAULT_SCHEMA none

/-- C1: a Database issues no GET at construction (`Database.init` stores the
attributes, leaves the `_datasets` slot absent and takes no transport at all);
a first read of `datasets` on an instance with an absent cache issues exactly
one GET with query parameters `type=datasets` and `mart` equal to the
Database's name; when the fetch succeeds the mapping is stored in the slot,
and any later read returns that same mapping with no further GET. -/
theorem database_datasets_lazy_memoized_single_get
    (n dn disp : String) (h p : Option String) (po : Option Nat) (uc : Bool)
    (vs : String) (ep : Option (List (String × String))) (get get₂ : GetFn) :
    (Database.init n dn disp h p po uc vs ep)._datasets = none ∧
    ∀ db : Database, db._datasets = none →
      (db.datasetsProp get).requests
          = [[("type", "datasets"), ("mart", db._name)]] ∧
      ∀ m : DMap, (db.datasetsProp get).result = .ok m →
        (db.datasetsProp get).db._datasets = some m ∧
        (db.datasetsProp get).db.datasetsProp get₂
          = ⟨.ok m, (db.datasetsProp get).db, []⟩ := by
  refine ⟨rfl, fun db hc =>
    ⟨datasetsProp_requests_of_none db get hc, fun m hm => ?_⟩⟩
  cases hf : db.fetchDatasets get with
  | error e =>
    rw [datasetsProp_of_none_error db get e hc hf] at hm
    exact absurd hm (by simp)
  | ok m₂ =>
    have heq := datasetsProp_of_none_ok db get m₂ hc hf
    rw [heq] at hm ⊢
    simp only [] at hm
    have hm₂ : m₂ = m := by
      have : (Except.ok m₂ : Except Err DMap) = .ok m := hm
      exact Except.ok.inj this
    subst hm₂
    exact ⟨rfl, datasetsProp_of_some _ get₂ _ rfl⟩

/-- C1 witness: the theorem applied to the crafted Database and transport. -/
theorem database_datasets_lazy_memoized_single_get_witness :
    (c2_db.datasetsProp c2_get).requests
        = [[("type", "datasets"), ("mart", "mart1")]] ∧
    (c2_db.datasetsProp c2_get).db._datasets = some c2_map ∧
    (c2_db.datasetsProp c2_get).db.datasetsProp c2_get
      = ⟨.ok c2_map, (c2_db.datasetsProp c2_get).db, []⟩ := by
  have h := database_datasets_lazy_memoized_single_get "mart1" "the_db" "The DB"
    none none none true DEFAULT_SCHEMA none c2_get c2_get
  obtain ⟨-, h₂⟩ := h
  obtain ⟨hr, hm⟩ := h₂ c2_db rfl
  obtain ⟨ha, hb⟩ := hm c2_map rfl
  exact ⟨hr, ha, hb⟩

/-- C2: reading `datasets` against the crafted two-row body yields the mapping
with exactly the keys ds1 and ds2, and the dataset stored under ds1 has
display name Display One. -/
theorem datasets_parse_crafted_body :
    (c2_db.datasetsProp c2_get).result = .ok c2_map ∧
    c2_map.map Prod.fst = [some "ds1", some "ds2"] ∧
    (dictLookup c2_map (some "ds1")).map Dataset.display_name
      = some (some "Display One") :=
  ⟨rfl, rfl, rfl⟩

/-- C3: for a response whose rows include duplicates of a name, the mapping
returned by `datasets` holds exactly one entry under that key, namely the
dataset built from the last row carrying it; duplicates are not an error. -/
theorem datasets_duplicate_name_last_write_wins
    (db : Database) (get : GetFn) (resp : Response) (rows : List Row)
    (k : Option String) (d : Dataset)
    (hc : db._datasets = none)
    (hg : get db.queryParams = .ok resp)
    (hr : readCsvTsv resp.text = .ok rows)
    (hl : (rows.map db.datasetFromRow).reverse.find?
        (fun x => decide (x.name = k)) = some d) :
    (db.datasetsProp get).result
        = .ok (dictOfDatasets (rows.map db.datasetFromRow)) ∧
    dictLookup (dictOfDatasets (rows.map db.datasetFromRow)) k = some d ∧
    countKey (dictOfDatasets (rows.map db.datasetFromRow)) k = 1 := by
  have hf := fetchDatasets_of_parse_ok db get resp rows hg hr
  refine ⟨?_, ?_, ?_⟩
  · rw [datasetsProp_of_none_ok db get _ hc hf]
  · exact dictLookup_foldl_some _ _ _ _ hl
  · have h1 := dictLookup_foldl_some (rows.map db.datasetFromRow) [] k d hl
    have h2 := one_le_countKey_of_dictLookup _ _ _ h1
    have h3 := countKey_foldl_le_one (rows.map db.datasetFromRow) []
      (fun _ => by simp [countKey]) k
    simp only [dictOfDatasets]
    omega

/-- C3 witness: two rows named ds1 with display names Alpha and Beta yield a
single entry holding the Beta dataset. -/
theorem datasets_duplicate_name_last_write_wins_witness :
    (c2_db.datasetsProp dup_get).result
        = .ok (dictOfDatasets (dup_rows.map c2_db.datasetFromRow)) ∧
    dictLookup (dictOfDatasets (dup_rows.map c2_db.datasetFromRow))
        (some "ds1") = some dup_last ∧
    countKey (dictOfDatasets (dup_rows.map c2_db.datasetFromRow))
        (some "ds1") = 1 :=
  datasets_duplicate_name_last_write_wins c2_db dup_get ⟨dup_body⟩ dup_rows
    (some "ds1") dup_last rfl rfl rfl rfl

/-- C4: a dataset built by `_dataset_from_row` receives the Database's own
host, path, port and use_cache whatever the row holds, and hence so does every
dataset stored in the mapping built from any row list. -/
theorem dataset_from_row_inherits_transport
    (db : Database) (row : Row) (rows : List Row) (k : Option String)
    (d : Dataset) :
    ((db.datasetFromRow row).host = db.host ∧
     (db.datasetFromRow row).path = db.path ∧
     (db.datasetFromRow row).port = db.port ∧
     (db.datasetFromRow row).use_cache = db.use_cache) ∧
    (dictLookup (dictOfDatasets (rows.map db.datasetFromRow)) k = some d →
      d.host = db.host ∧ d.path = db.path ∧ d.port = db.port ∧
      d.use_cache = db.use_cache) := by
  refine ⟨⟨rfl, rfl, rfl, rfl⟩, fun hl => ?_⟩
  rcases dictLookup_foldl_mem (rows.map db.datasetFromRow) [] k d hl with hm | hnone
  · rcases List.mem_map.mp hm with ⟨r, -, hr⟩
    subst hr
    exact ⟨rfl, rfl, rfl, rfl⟩
  · simp [dictLookup] at hnone

/-- C4 witness: the theorem applied to the crafted Database, first crafted row
and the crafted row list with key ds1. -/
theorem dataset_from_row_inherits_transport_witness :
    ((c2_db.datasetFromRow c2_row1).host = c2_db.host ∧
     (c2_db.datasetFromRow c2_row1).path = c2_db.path ∧
     (c2_db.datasetFromRow c2_row1).port = c2_db.port ∧
     (c2_db.datasetFromRow c2_row1).use_cache = c2_db.use_cache) ∧
    (c2_d1.host = c2_db.host ∧ c2_d1.path = c2_db.path ∧
     c2_d1.port = c2_db.port ∧ c2_d1.use_cache = c2_db.use_cache) := by
  have h := dataset_from_row_inherits_transport c2_db c2_row1 c2_rows
    (some "ds1") c2_d1
  exact ⟨h.1, h.2 rfl⟩

end PyBiomart

namespace PyBiomart

/-- C5: when the GET raises, `datasets` propagates that same error, the state
is unchanged (the cache slot stays absent), and a subsequent access issues the
GET again instead of returning a stale or empty cached mapping. -/
theorem datasets_transport_failure_propagates_no_cache
    (db : Database) (get : GetFn) (e : Err)
    (hc : db._datasets = none)
    (hg : get db.queryParams = .error e) :
    db.datasetsProp get = ⟨.error e, db, [db.queryParams]⟩ ∧
    (db.datasetsProp get).db._datasets = none ∧
    ∀ get₂ : GetFn,
      ((db.datasetsProp get).db.datasetsProp get₂).requests
        = [db.queryParams] := by
  have hf := fetchDatasets_of_get_error db get e hg
  have h1 := datasetsProp_of_none_error db get e hc hf
  refine ⟨h1, ?_, fun get₂ => ?_⟩
  · rw [h1]
    exact hc
  · rw [h1]
    exact datasetsProp_requests_of_none db get₂ hc

/-- C5 witness: a failing transport leaves the crafted Database untouched and
a retry against a working transport issues the GET again. -/
theorem datasets_transport_failure_propagates_no_cache_witness :
    c2_db.datasetsProp failGet
      = ⟨.error (.transport "connection refused"), c2_db,
         [[("type", "datasets"), ("mart", "mart1")]]⟩ ∧
    (c2_db.datasetsProp failGet).db._datasets = none ∧
    ((c2_db.datasetsProp failGet).db.datasetsProp c2_get).requests
      = [[("type", "datasets"), ("mart", "mart1")]] := by
  have h := datasets_transport_failure_propagates_no_cache c2_db failGet
    (.transport "connection refused") rfl rfl
  exact ⟨h.1, h.2.1, h.2.2 c2_get⟩

/-- C6: once the mapping is fetched, indexing by an absent name raises
`KeyError` (`Err.keyNotFound`), an error kind distinct from the transport and
parse kinds; indexing by a present name returns the stored dataset; and the
indexing operation issues exactly the GETs of the underlying `datasets`
access (the lazy fetch is triggered through it). -/
theorem getitem_unknown_key_keyerror
    (db : Database) (get : GetFn) (name : String) (m : DMap)
    (hm : (db.datasetsProp get).result = .ok m) :
    (dictLookup m (some name) = none →
      (db.getItem get name).result = .error (.keyNotFound name)) ∧
    (∀ d : Dataset, dictLookup m (some name) = some d →
      (db.getItem get name).result = .ok d) ∧
    (∀ msg : String, Err.keyNotFound name ≠ Err.transport msg) ∧
    Err.keyNotFound name ≠ Err.emptyData ∧
    (∀ a b : Nat, Err.keyNotFound name ≠ Err.tokenizeError a b) ∧
    (db.getItem get name).requests = (db.datasetsProp get).requests := by
  constructor
  · intro hn
    simp only [Database.getItem, hm, hn]
  constructor
  · intro d hd
    simp only [Database.getItem, hm, hd]
  constructor
  · intro msg hh
    cases hh
  constructor
  · intro hh
    cases hh
  constructor
  · intro a b hh
    cases hh
  · simp only [Database.getItem]
    split
    · rfl
    · split <;> rfl

/-- C6 witness: against the crafted fetched mapping, indexing by `nosuch`
raises the KeyError kind, indexing by ds1 returns its dataset, and the error
kinds are distinct. -/
theorem getitem_unknown_key_keyerror_witness :
    (c2_db.getItem c2_get "nosuch").result = .error (.keyNotFound "nosuch") ∧
    (c2_db.getItem c2_get "ds1").result = .ok c2_d1 ∧
    Err.keyNotFound "nosuch" ≠ Err.transport "connection refused" ∧
    Err.keyNotFound "nosuch" ≠ Err.emptyData ∧
    Err.keyNotFound "nosuch" ≠ Err.tokenizeError 9 10 ∧
    (c2_db.getItem c2_get "nosuch").requests
      = (c2_db.datasetsProp c2_get).requests := by
  have h := getitem_unknown_key_keyerror c2_db c2_get "nosuch" c2_map rfl
  have h₂ := getitem_unknown_key_keyerror c2_db c2_get "ds1" c2_map rfl
  exact ⟨h.1 rfl, h₂.2.1 c2_d1 rfl, h.2.2.1 "connection refused",
    h.2.2.2.1, h.2.2.2.2.1 9 10, h.2.2.2.2.2⟩

/-- C7 counterexample: a body whose single row tabulates into two of the nine
columns is accepted by `datasets` — the missing columns are read as NaN and a
mapping is returned — not rejected with a parse error, refuting the claim as
stated. -/
theorem short_row_body_accepted :
    (c7_db.datasetsProp c7_get).result
      = .ok [(some "b", ⟨some "b", none, some "www.example.org",
          some "/biomart/martservice", some 80, true, none⟩)] := rfl

/-- C7 (amended): when the body does raise a pandas parse error — an empty
body, or a row wider than the expected width — the error propagates to the
caller of `datasets` and the cache slot stays absent; a row with fewer than
nine columns is not a parse error (its missing fields are read as NaN). -/
theorem parse_error_propagates_no_cache
    (db : Database) (get : GetFn) (resp : Response) (e : Err)
    (hc : db._datasets = none)
    (hg : get db.queryParams = .ok resp)
    (hp : readCsvTsv resp.text = .error e) :
    db.datasetsProp get = ⟨.error e, db, [db.queryParams]⟩ ∧
    (db.datasetsProp get).db._datasets = none := by
  have hf := fetchDatasets_of_parse_error db get resp e hg hp
  have h1 := datasetsProp_of_none_error db get e hc hf
  exact ⟨h1, by rw [h1]; exact hc⟩

/-- C7 witness: a second row of ten fields raises the tokenizer error, which
propagates with the cache left absent. -/
theorem parse_error_propagates_no_cache_witness :
    c7_db.datasetsProp wideGet
      = ⟨.error (.tokenizeError 9 10), c7_db,
         [[("type", "datasets"), ("mart", "m7")]]⟩ ∧
    (c7_db.datasetsProp wideGet).db._datasets = none := by
  have h := parse_error_propagates_no_cache c7_db wideGet
    ⟨"a\tb\nc\td\te\tf\tg\th\ti\tj\tk\tl"⟩ (.tokenizeError 9 10) rfl rfl rfl
  exact h

/-- C8: a dataset built by `_dataset_from_row` takes its name, display name
and virtual schema from the row's fields (for every Database, in particular
whatever the Database's own `_virtual_schema` is). -/
theorem dataset_from_row_uses_row_fields (db : Database) (row : Row) :
    (db.datasetFromRow row).name = row.name ∧
    (db.datasetFromRow row).display_name = row.display_name ∧
    (db.datasetFromRow row).virtual_schema = row.virtual_schema :=
  ⟨rfl, rfl, rfl⟩

/-- C9: evaluating `__repr__` at name `n`, database_name `dbn`,
display_name `disp` puts the display_name value under the `database_name=`
label and the database_name value under the `display_name=` label: the three
values appear in the order name, display_name, database_name rather than the
claimed name, database_name, display_name. -/
theorem repr_swaps_database_and_display_name :
    c9_db.reprStr
      = "<biomart.Mart name='n', database_name='disp', display_name='dbn'>" :=
  rfl

/-- C10: an empty response body (no non-blank line) makes `datasets` raise
pandas `EmptyDataError` instead of returning an empty mapping, and the cache
slot stays absent — the fetched-but-empty state is never produced this way. -/
theorem empty_body_raises_empty_data_error
    (db : Database) (get : GetFn) (resp : Response)
    (hc : db._datasets = none)
    (hg : get db.queryParams = .ok resp)
    (hb : bodyLines resp.text = []) :
    db.datasetsProp get = ⟨.error .emptyData, db, [db.queryParams]⟩ ∧
    (db.datasetsProp get).db._datasets = none := by
  have hp : readCsvTsv resp.text = .error .emptyData := by
    simp only [readCsvTsv, hb]
  have hf := fetchDatasets_of_parse_error db get resp _ hg hp
  have h1 := datasetsProp_of_none_error db get _ hc hf
  exact ⟨h1, by rw [h1]; exact hc⟩

/-- C10 witness: the theorem applied to a transport returning an empty
body. -/
theorem empty_body_raises_empty_data_error_witness :
    c2_db.datasetsProp emptyGet
      = ⟨.error .emptyData, c2_db, [[("type", "datasets"), ("mart", "mart1")]]⟩ ∧
    (c2_db.datasetsProp emptyGet).db._datasets = none :=
  empty_body_raises_empty_data_error c2_db emptyGet ⟨""⟩ rfl rfl rfl

end PyBiomart
